import Mathlib

/-!
Verification development for the blog-post CRUD repository.

The repository ships one substantive source file, the integration test
suite `test/test-posts-integration.js`, together with a wallaby
configuration.  The server (`../server`), the data model (`../models`)
and the configuration (`../config`) are required by the test file but
are not part of the available sources, so those collaborators are
modelled from the specification (sections 3, 4.1, 4.2 and 6 of the
spec) and each such definition is marked `Modelled from the spec:` in
its doc comment.  Everything that does live in the test file — the
fixture generators, the seeding routine, the harness hooks, and the
request bodies the harness sends — is embedded directly from the
source.
-/

namespace BlogApp

/-! ## Data model (spec section 3) -/

/-- Modelled from the spec: the structured author name stored on a blog
post, with `firstName` and `lastName` fields. -/
structure Author where
  firstName : String
  lastName : String
deriving Repr, DecidableEq

/-- Modelled from the spec: the caller-supplied part of a blog post, as
sent to `POST /posts` and to `insertMany` (author, title, content; id
and created are assigned by the store). -/
structure NewPost where
  author : Author
  title : String
  content : String
deriving Repr, DecidableEq

/-- Modelled from the spec: a stored blog-post record.  The opaque
store-assigned id and the creation timestamp are both modelled as
natural numbers. -/
structure BlogPost where
  id : Nat
  author : Author
  title : String
  content : String
  created : Nat
deriving Repr, DecidableEq

/-- JSON values, used for HTTP response and request bodies.  Objects
keep their fields as an ordered association list so that the exact key
set of a body can be stated. -/
inductive JValue where
  | jstr (s : String)
  | jnum (n : Nat)
  | jarr (elems : List JValue)
  | jobj (fields : List (String × JValue))
deriving Repr

/-- Modelled from the spec: the author of a post is exposed externally
as the single formatted string consisting of first name, a space, and
last name. -/
def formatAuthor (a : Author) : String :=
  a.firstName ++ " " ++ a.lastName

/-! ## Document store adapter (spec section 4.1) -/

/-- Modelled from the spec: the document store holding the blog-post
collection.  `nextId` is the next fresh id (also used as the creation
timestamp), so that ids are unique and never reused after deletion. -/
structure Store where
  nextId : Nat
  records : List BlogPost
deriving Repr, DecidableEq

/-- Modelled from the spec: inserting a single record assigns the next
fresh id and the creation timestamp and appends the record to the
collection, returning the inserted representation. -/
def insertOne (p : NewPost) (s : Store) : BlogPost × Store :=
  let r : BlogPost :=
    { id := s.nextId, author := p.author, title := p.title
      content := p.content, created := s.nextId }
  (r, { nextId := s.nextId + 1, records := s.records ++ [r] })

/-- Modelled from the spec: `insertMany` persists a batch of new posts
in order, assigning id and created to each, and returns the inserted
representations. -/
def insertMany : List NewPost → Store → List BlogPost × Store
  | [], s => ([], s)
  | p :: ps, s =>
    ((insertOne p s).1 :: (insertMany ps (insertOne p s).2).1,
      (insertMany ps (insertOne p s).2).2)

/-- Modelled from the spec: point lookup by id; absent (`none`) when no
record has that id. -/
def findById (i : Nat) (s : Store) : Option BlogPost :=
  s.records.find? (fun r => r.id == i)

/-- Modelled from the spec: returns an arbitrary existing record (the
harness uses it to obtain a valid id); here the first record. -/
def findOne (s : Store) : Option BlogPost :=
  s.records.head?

/-- Modelled from the spec: total number of records in the store. -/
def count (s : Store) : Nat :=
  s.records.length

/-- Modelled from the spec: the per-record effect of a partial update —
a record with the addressed id gets the supplied fields merged in,
every other record is untouched. -/
def applyUpdate (i : Nat) (t c : Option String) (r : BlogPost) : BlogPost :=
  if r.id == i then
    { r with title := t.getD r.title, content := c.getD r.content }
  else r

/-- Modelled from the spec: merges only the supplied fields (title
and/or content) into the record with the given id; fields not supplied
are left untouched, and an unknown id is a silent no-op. -/
def updateFields (i : Nat) (t c : Option String) (s : Store) : Store :=
  { s with records := s.records.map (applyUpdate i t c) }

/-- Modelled from the spec: removes the record with the given id;
unknown ids are a silent no-op. -/
def deleteById (i : Nat) (s : Store) : Store :=
  { s with records := s.records.filter (fun r => r.id != i) }

/-- Modelled from the spec: destructive full wipe of the collection,
used only for test isolation.  The id counter survives so ids are never
reused. -/
def dropAll (s : Store) : Store :=
  { s with records := [] }

/-! ## Resource server (spec sections 4.2 and 6) -/

/-- Modelled from the spec: the externally visible projection of a
stored post, `PostView`, as a JSON object whose author field is the
pre-formatted display string. -/
def postView (r : BlogPost) : List (String × JValue) :=
  [("id", .jnum r.id),
   ("author", .jstr (formatAuthor r.author)),
   ("content", .jstr r.content),
   ("title", .jstr r.title),
   ("created", .jnum r.created)]

/-- An HTTP response: a status code and an optional JSON body (`none`
is an empty body). -/
structure Response where
  status : Nat
  body : Option JValue
deriving Repr

/-- Modelled from the spec: the list of post projections that the List
operation embeds in its response body. -/
def getPostsBody (s : Store) : List (List (String × JValue)) :=
  s.records.map postView

/-- Modelled from the spec: `GET /posts` answers 200 with body
`{posts: [PostView, ...]}` covering every stored post. -/
def handleGet (s : Store) : Response :=
  { status := 200
    body := some (.jobj [("posts", .jarr ((getPostsBody s).map .jobj))]) }

/-- The record created by the Create operation for a given input and
store state. -/
def createdPost (p : NewPost) (s : Store) : BlogPost :=
  (insertOne p s).1

/-- Modelled from the spec: `POST /posts` inserts the new post into the
store and answers 201 with the PostView of the created post. -/
def handlePost (p : NewPost) (s : Store) : Response × Store :=
  ({ status := 201, body := some (.jobj (postView (createdPost p s))) },
    (insertOne p s).2)

/-- Looks up a string-valued field in a JSON object body; any other
shape counts as not supplied. -/
def lookupStr (body : List (String × JValue)) (k : String) : Option String :=
  match body.lookup k with
  | some (.jstr s) => some s
  | _ => none

/-- Modelled from the spec: `PUT /posts/:id` reads the optional title
and content fields out of the request body, merges exactly those into
the addressed record, ignores any other body keys, and answers 204 with
an empty body (the lenient contract of spec section 7). -/
def handlePut (i : Nat) (body : List (String × JValue)) (s : Store) :
    Response × Store :=
  ({ status := 204, body := none },
    updateFields i (lookupStr body "title") (lookupStr body "content") s)

/-- Modelled from the spec: `DELETE /posts/:id` removes the addressed
record and answers 204 with an empty body. -/
def handleDelete (i : Nat) (s : Store) : Response × Store :=
  ({ status := 204, body := none }, deleteById i s)

/-- A well-formed store: every stored id is below the fresh-id counter.
Every store reachable from the empty store by the operations above
satisfies this, and it is what makes ids unique and never reused. -/
def WellFormed (s : Store) : Prop :=
  ∀ r ∈ s.records, r.id < s.nextId

/-! ## Fixture generators (test/test-posts-integration.js, lines 33-68)

The generators call `Math.floor(Math.random() * arr.length)` to pick an
index.  `Math.random()` is modelled as a rational number `r` with
`0 ≤ r < 1`, and the index computation is embedded literally. -/

/-- The index expression `Math.floor(r * len)` shared by all three
fixture selectors (lines 40, 46 and 56 of the test file). -/
def jsIndex (r : ℚ) (len : Nat) : Nat :=
  (Int.floor (r * (len : ℚ))).toNat

/-- A JavaScript expression as it appears inside the authors array
literal of `generateAuthor`: either a string literal or a bare
identifier reference. -/
inductive JsExpr where
  | ident (name : String)
  | strLit (s : String)
deriving Repr, DecidableEq

/-- The identifiers bound in the module scope of the test file: the
required bindings of lines 3-15 and the five function declarations.
None of the tokens used in the authors array is among them. -/
def moduleScope : List String :=
  ["chai", "chaiHttp", "mongoose", "should", "BlogPost",
   "app", "runServer", "closeServer", "TEST_DATABASE_URL",
   "seedPostData", "generateAuthor", "generateTitle",
   "generateContent", "generateBlogPostData", "tearDownDb"]

/-- Evaluates one expression under strict-mode scoping: a string
literal is its value, an identifier is looked up in scope and throws a
`ReferenceError` when unbound.  In-scope identifiers stand for an
opaque value (their name), which is all the embedding needs. -/
def evalExpr (env : List String) : JsExpr → Except String JValue
  | .strLit s => .ok (.jstr s)
  | .ident n =>
    if env.contains n then .ok (.jstr n)
    else .error ("ReferenceError: " ++ n ++ " is not defined")

/-- Evaluates an object literal, field by field in order, propagating
the first thrown error. -/
def evalObj (env : List String) (fields : List (String × JsExpr)) :
    Except String JValue := do
  let vs ← fields.mapM (fun f => do pure (f.1, ← evalExpr env f.2))
  pure (.jobj vs)

/-- The three elements of the `authors` array literal of
`generateAuthor` (lines 35-39), transcribed token for token: every
field value is a bare identifier, not a string literal. -/
def authorsSrc : List (List (String × JsExpr)) :=
  [[("firstName", .ident "Jeff"), ("lastName", .ident "Bernstein")],
   [("firstName", .ident "Mr"), ("lastName", .ident "CodeGuy")],
   [("firstName", .ident "Ms"), ("lastName", .ident "CodeGirl")]]

/-- The body of `generateAuthor` (lines 34-41): evaluate the array
literal (all elements, in order, as JavaScript does before indexing),
then index it with `Math.floor(Math.random() * authors.length)`. -/
def generateAuthor (r : ℚ) : Except String JValue := do
  let vs ← authorsSrc.mapM (evalObj moduleScope)
  pure (vs.getD (jsIndex r vs.length) (.jstr ""))

/-- The `title` array of `generateTitle` (line 45), transcribed from
the source. -/
def titleArr : List String :=
  ["great title!", "another great title!", "howdy"]

/-- The body of `generateTitle` (lines 44-47). -/
def generateTitle (r : ℚ) : String :=
  titleArr.getD (jsIndex r titleArr.length) ""

/-- The first string literal of the `content` array (line 52). -/
def lorem1 : String :=
  "Lorem ipsum dolor sit amet, consectetur adipisicing elit. Aperiam commodi cum eveniet incidunt iste nam natus non sed suscipit veniam. Aliquam debitis deleniti dignissimos doloribus maiores modi repudiandae similique tenetur."

/-- The second string literal of the `content` array (line 53). -/
def lorem2 : String :=
  "Lorem ipsum dolor sit amet, consectetur adipisicing elit. Deserunt eaque, inventore iusto odit perferendis rerum sequi! Alias aliquam dolores possimus sint sit! Doloremque enim magnam sapiente tenetur veritatis? Eum, quos."

/-- The third string literal of the `content` array (line 54). -/
def lorem3 : String :=
  "Lorem ipsum dolor sit amet, consectetur adipisicing elit. Ab aliquam autem cum, delectus doloremque eligendi explicabo harum nemo non nulla obcaecati quia quis reprehenderit sapiente vero? Cupiditate eum fugit totam?"

/-- The three content strings as written, used to state bounds facts
about the content selector. -/
def contentStrings : List String :=
  [lorem1, lorem2, lorem3]

/-- Tokens of a JavaScript array literal restricted to what appears in
`generateContent`: brackets, commas and string literals. -/
inductive Tok where
  | lbrack
  | rbrack
  | comma
  | strTok (s : String)
deriving Repr, DecidableEq

/-- The token stream of the `content` array literal exactly as written
on lines 51-55 of the test file: three string literals with NO commas
between them. -/
def contentArrayToks : List Tok :=
  [.lbrack, .strTok lorem1, .strTok lorem2, .strTok lorem3, .rbrack]

/-- Recognises the continuation of an array literal after its first
element: per the JavaScript grammar, further elements must each be
preceded by a comma, and the literal ends with a closing bracket. -/
def parseElemsRest : List Tok → List String → Option (List String)
  | [.rbrack], acc => some acc.reverse
  | .comma :: .strTok s :: ts, acc => parseElemsRest ts (s :: acc)
  | _, _ => none

/-- Recognises a full array literal of string elements per the
JavaScript `ArrayLiteral` grammar. -/
def parseArrayLit : List Tok → Option (List String)
  | [.lbrack, .rbrack] => some []
  | .lbrack :: .strTok s :: ts => parseElemsRest ts [s]
  | _ => none

/-! ## Seeding and harness (test/test-posts-integration.js, lines 22-31
and 75-100)

`generateBlogPostData` draws three random values per call; since its
author and content selectors fail on the source as written (see the
theorems below), the seeding routine is embedded parametrically in the
sequence of generator results: `g i` is the value returned by the
`i`-th call of `generateBlogPostData` in the loop. -/

/-- The body of `seedPostData` (lines 22-31): a loop pushes ten
generated fixtures into `seedData`, after which the whole batch is
persisted by a single `insertMany` call whose promise is returned. -/
def seedPostData (g : Nat → NewPost) (s : Store) : List BlogPost × Store :=
  insertMany ((List.range 10).map g) s

/-- The body of `tearDownDb` (lines 75-78): drops the entire database. -/
def tearDownDb (s : Store) : Store :=
  dropAll s

/-- One event of the mocha suite execution, as registered by the hooks
on lines 86-100 of the test file. -/
inductive Event where
  | runServerEv
  | closeServerEv
  | seedEv (i : Nat)
  | testEv (i : Nat)
  | dropEv (i : Nat)
deriving Repr, DecidableEq

/-- Modelled from the spec: the mocha execution order of the registered
hooks — `before` once, then for every test case `beforeEach`, the case,
`afterEach`, and finally `after` once. -/
def suiteTrace (n : Nat) : List Event :=
  [.runServerEv]
    ++ (List.range n).flatMap (fun i => [.seedEv i, .testEv i, .dropEv i])
    ++ [.closeServerEv]

/-- The store state after the first `i` complete test cases (each case
is seed, arbitrary test effects, then `tearDownDb`), starting from the
fresh test database.  `effects i` is whatever writes test case `i`
performs, and `g i` is the generator-result sequence of its seeding. -/
def storeBetween (effects : Nat → Store → Store) (g : Nat → Nat → NewPost) :
    Nat → Store
  | 0 => { nextId := 0, records := [] }
  | i + 1 =>
    tearDownDb (effects i (seedPostData (g i) (storeBetween effects g i)).2)

/-- The store state test case `i` observes when it starts: the state
left between cases, freshly seeded by its own `beforeEach`. -/
def storeAtTestStart (effects : Nat → Store → Store)
    (g : Nat → Nat → NewPost) (i : Nat) : Store :=
  (seedPostData (g i) (storeBetween effects g i)).2

/-! ## Store lemmas -/

theorem insertMany_fst_length (ps : List NewPost) (s : Store) :
    (insertMany ps s).1.length = ps.length := by
  induction ps generalizing s with
  | nil => rfl
  | cons p ps ih => simp [insertMany, ih]

theorem insertMany_snd_records (ps : List NewPost) (s : Store) :
    (insertMany ps s).2.records = s.records ++ (insertMany ps s).1 := by
  induction ps generalizing s with
  | nil => simp [insertMany]
  | cons p ps ih => simp [insertMany, ih, insertOne]

/-- The caller-supplied fields of a batch insert are persisted
verbatim, record by record, in order. -/
theorem insertMany_fst_fields (ps : List NewPost) (s : Store) :
    (insertMany ps s).1.map (fun b => (b.author, b.title, b.content))
      = ps.map (fun p => (p.author, p.title, p.content)) := by
  induction ps generalizing s with
  | nil => rfl
  | cons p ps ih => simp [insertMany, insertOne, ih]

theorem applyUpdate_id (i : Nat) (t c : Option String) (r : BlogPost) :
    (applyUpdate i t c r).id = r.id := by
  unfold applyUpdate
  split <;> rfl

theorem find?_map_applyUpdate_self (i : Nat) (t c : Option String)
    (l : List BlogPost) (p0 : BlogPost)
    (h : l.find? (fun r => r.id == i) = some p0) :
    (l.map (applyUpdate i t c)).find? (fun r => r.id == i)
      = some { p0 with title := t.getD p0.title, content := c.getD p0.content } := by
  induction l with
  | nil => simp at h
  | cons r l ih =>
    by_cases hr : r.id = i
    · rw [List.find?_cons_of_pos _ (by simpa using hr)] at h
      rw [List.map_cons,
        List.find?_cons_of_pos _ (by simpa [applyUpdate_id] using hr)]
      cases h
      simp [applyUpdate, hr]
    · rw [List.find?_cons_of_neg _ (by simpa using hr)] at h
      rw [List.map_cons,
        List.find?_cons_of_neg _ (by simpa [applyUpdate_id] using hr)]
      exact ih h

theorem find?_map_applyUpdate_ne (i j : Nat) (t c : Option String)
    (l : List BlogPost) (hij : j ≠ i) :
    (l.map (applyUpdate i t c)).find? (fun r => r.id == j)
      = l.find? (fun r => r.id == j) := by
  induction l with
  | nil => rfl
  | cons r l ih =>
    by_cases hr : r.id = j
    · rw [List.map_cons,
        List.find?_cons_of_pos _ (by simpa [applyUpdate_id] using hr),
        List.find?_cons_of_pos _ (by simpa using hr)]
      have hfalse : (r.id == i) = false := by
        rw [hr]
        exact beq_eq_false_iff_ne.mpr hij
      have hkeep : applyUpdate i t c r = r := by
        unfold applyUpdate
        rw [hfalse]
        simp
      rw [hkeep]
    · rw [List.map_cons,
        List.find?_cons_of_neg _ (by simpa [applyUpdate_id] using hr),
        List.find?_cons_of_neg _ (by simpa using hr)]
      exact ih

/-! ## Claim C9: the selector index is always in bounds -/

theorem jsIndex_lt (r : ℚ) (h1 : r < 1) (len : Nat) (hlen : 0 < len) :
    jsIndex r len < len := by
  unfold jsIndex
  have hl : (0 : ℚ) < (len : ℚ) := by exact_mod_cast hlen
  have hmul : r * (len : ℚ) < (len : ℚ) := by
    have := mul_lt_mul_of_pos_right h1 hl
    simpa using this
  have hfl : Int.floor (r * (len : ℚ)) < (len : ℤ) := by
    rw [Int.floor_lt]
    push_cast
    exact hmul
  omega

/-- C9: in every fixture selector the computed index
`Math.floor(random * arr.length)` over the length-3 arrays of
`generateAuthor`, `generateTitle` and `generateContent` lies in bounds
`0..2` whenever the random draw is in `[0, 1)`, so the array access
never goes out of bounds. -/
theorem selector_index_in_bounds (r : ℚ) (_h0 : 0 ≤ r) (h1 : r < 1) :
    jsIndex r authorsSrc.length < authorsSrc.length ∧
    jsIndex r titleArr.length < titleArr.length ∧
    jsIndex r contentStrings.length < contentStrings.length ∧
    jsIndex r 3 ≤ 2 := by
  have h3 : jsIndex r 3 < 3 := jsIndex_lt r h1 3 (by omega)
  have ha : authorsSrc.length = 3 := rfl
  have ht : titleArr.length = 3 := rfl
  have hc : contentStrings.length = 3 := rfl
  exact ⟨ha ▸ h3, ht ▸ h3, hc ▸ h3, by omega⟩

/-- Witness for C9 at the concrete draw `r = 0`. -/
theorem selector_index_in_bounds_witness :
    (0 : ℚ) ≤ 0 ∧ (0 : ℚ) < 1 ∧
    (jsIndex 0 authorsSrc.length < authorsSrc.length ∧
      jsIndex 0 titleArr.length < titleArr.length ∧
      jsIndex 0 contentStrings.length < contentStrings.length ∧
      jsIndex 0 3 ≤ 2) :=
  ⟨le_refl 0, zero_lt_one, selector_index_in_bounds 0 (le_refl 0) zero_lt_one⟩

/-! ## Sample fixtures for witnesses -/

/-- A concrete author used by witness instantiations. -/
def sampleAuthor : Author := { firstName := "A", lastName := "B" }

/-- A concrete new post used by witness instantiations. -/
def sampleNewPost : NewPost :=
  { author := sampleAuthor, title := "T", content := "C" }

/-- The fresh test store. -/
def emptyStore : Store := { nextId := 0, records := [] }

/-- A concrete stored record used by witness instantiations. -/
def sampleRecord : BlogPost :=
  { id := 0, author := sampleAuthor, title := "T", content := "C", created := 0 }

/-- A concrete one-record store used by witness instantiations. -/
def sampleStore : Store := { nextId := 1, records := [sampleRecord] }

/-! ## Claim C1: create round-trip -/

theorem insertOne_snd_records (p : NewPost) (s : Store) :
    (insertOne p s).2.records = s.records ++ [(insertOne p s).1] := rfl

theorem createdPost_id (p : NewPost) (s : Store) :
    (createdPost p s).id = s.nextId := rfl

/-- C1: for every new post `p` and well-formed store, `POST /posts`
answers 201 with a body carrying the title and content of `p`, the
formatted author string, and a present (non-null) id; and looking the
returned id up with `findById` in the post-state yields the stored
record, whose title, content and formatted author equal those of `p`. -/
theorem create_roundtrip (p : NewPost) (s : Store) (hs : WellFormed s) :
    (handlePost p s).1.status = 201 ∧
    (handlePost p s).1.body = some (.jobj (postView (createdPost p s))) ∧
    (postView (createdPost p s)).lookup "title" = some (.jstr p.title) ∧
    (postView (createdPost p s)).lookup "content" = some (.jstr p.content) ∧
    (postView (createdPost p s)).lookup "author"
      = some (.jstr (formatAuthor p.author)) ∧
    (postView (createdPost p s)).lookup "id"
      = some (.jnum (createdPost p s).id) ∧
    findById (createdPost p s).id (handlePost p s).2
      = some (createdPost p s) ∧
    (createdPost p s).title = p.title ∧
    (createdPost p s).content = p.content ∧
    formatAuthor (createdPost p s).author = formatAuthor p.author := by
  refine ⟨rfl, rfl, rfl, rfl, rfl, rfl, ?_, rfl, rfl, rfl⟩
  unfold findById
  have hrec : (handlePost p s).2.records
      = s.records ++ [createdPost p s] := rfl
  rw [hrec, List.find?_append]
  have hnone : s.records.find?
      (fun r => r.id == (createdPost p s).id) = none := by
    rw [List.find?_eq_none]
    intro x hx
    have hlt := hs x hx
    rw [createdPost_id]
    simp only [beq_iff_eq]
    omega
  rw [hnone]
  simp

/-- Witness for C1 on the concrete post `sampleNewPost` and the fresh
store. -/
theorem create_roundtrip_witness :
    WellFormed emptyStore ∧
    ((handlePost sampleNewPost emptyStore).1.status = 201 ∧
     (handlePost sampleNewPost emptyStore).1.body
       = some (.jobj (postView (createdPost sampleNewPost emptyStore))) ∧
     (postView (createdPost sampleNewPost emptyStore)).lookup "title"
       = some (.jstr sampleNewPost.title) ∧
     (postView (createdPost sampleNewPost emptyStore)).lookup "content"
       = some (.jstr sampleNewPost.content) ∧
     (postView (createdPost sampleNewPost emptyStore)).lookup "author"
       = some (.jstr (formatAuthor sampleNewPost.author)) ∧
     (postView (createdPost sampleNewPost emptyStore)).lookup "id"
       = some (.jnum (createdPost sampleNewPost emptyStore).id) ∧
     findById (createdPost sampleNewPost emptyStore).id
         (handlePost sampleNewPost emptyStore).2
       = some (createdPost sampleNewPost emptyStore) ∧
     (createdPost sampleNewPost emptyStore).title = sampleNewPost.title ∧
     (createdPost sampleNewPost emptyStore).content = sampleNewPost.content ∧
     formatAuthor (createdPost sampleNewPost emptyStore).author
       = formatAuthor sampleNewPost.author) :=
  ⟨fun r hr => by simp [emptyStore] at hr,
    create_roundtrip sampleNewPost emptyStore
      (fun r hr => by simp [emptyStore] at hr)⟩

/-! ## Claim C2: list count invariant -/

/-- C2: after seeding any batch of posts into the fresh store and
issuing no other writes, `GET /posts` answers 200 with a body holding
the posts array, whose length equals the store count; with at least one
seeded post the array is non-empty. -/
theorem list_count_invariant (ps : List NewPost) (s0 : Store)
    (h : s0.records = []) :
    (handleGet (insertMany ps s0).2).status = 200 ∧
    (handleGet (insertMany ps s0).2).body = some (.jobj
      [("posts", .jarr ((getPostsBody (insertMany ps s0).2).map .jobj))]) ∧
    (getPostsBody (insertMany ps s0).2).length
      = count (insertMany ps s0).2 ∧
    count (insertMany ps s0).2 = ps.length ∧
    (1 ≤ ps.length → 1 ≤ (getPostsBody (insertMany ps s0).2).length) := by
  have hlen : (getPostsBody (insertMany ps s0).2).length
      = count (insertMany ps s0).2 := by
    simp [getPostsBody, count]
  have hcount : count (insertMany ps s0).2 = ps.length := by
    unfold count
    rw [insertMany_snd_records, h]
    simp [insertMany_fst_length]
  refine ⟨rfl, rfl, hlen, hcount, ?_⟩
  intro h1
  omega

/-- Witness for C2: seed one concrete post into the fresh store. -/
theorem list_count_invariant_witness :
    emptyStore.records = [] ∧
    ((handleGet (insertMany [sampleNewPost] emptyStore).2).status = 200 ∧
     (handleGet (insertMany [sampleNewPost] emptyStore).2).body = some (.jobj
       [("posts", .jarr
         ((getPostsBody (insertMany [sampleNewPost] emptyStore).2).map .jobj))]) ∧
     (getPostsBody (insertMany [sampleNewPost] emptyStore).2).length
       = count (insertMany [sampleNewPost] emptyStore).2 ∧
     count (insertMany [sampleNewPost] emptyStore).2
       = [sampleNewPost].length ∧
     (1 ≤ [sampleNewPost].length →
       1 ≤ (getPostsBody (insertMany [sampleNewPost] emptyStore).2).length)) :=
  ⟨rfl, list_count_invariant [sampleNewPost] emptyStore rfl⟩

/-! ## Claim C3: projection completeness -/

/-- The five keys every PostView exposes, in the order the projection
writes them. -/
def postViewKeys : List String :=
  ["id", "author", "content", "title", "created"]

/-- C3: every PostView returned by the List operation and the one
returned by the Create operation carries exactly the keys id, author,
content, title and created — all five present and nothing else. -/
theorem projection_exact_keys (s : Store) (p : NewPost) :
    (∀ o ∈ getPostsBody s, o.map Prod.fst = postViewKeys) ∧
    (postView (createdPost p s)).map Prod.fst = postViewKeys ∧
    (handlePost p s).1.body = some (.jobj (postView (createdPost p s))) := by
  refine ⟨?_, rfl, rfl⟩
  intro o ho
  unfold getPostsBody at ho
  obtain ⟨r, _, rfl⟩ := List.mem_map.mp ho
  rfl

/-- Witness for C3 on the one-record store and a concrete new post. -/
theorem projection_exact_keys_witness :
    (postView sampleRecord).map Prod.fst = postViewKeys ∧
    (postView (createdPost sampleNewPost sampleStore)).map Prod.fst
      = postViewKeys :=
  ⟨(projection_exact_keys sampleStore sampleNewPost).1
      (postView sampleRecord) (by simp [getPostsBody, sampleStore]),
    (projection_exact_keys sampleStore sampleNewPost).2.1⟩

/-! ## Claim C5: partial update frame -/

/-- A PUT request body carrying a title and a content field. -/
def putBody (t c : String) : List (String × JValue) :=
  [("title", .jstr t), ("content", .jstr c)]

/-- C5: a `PUT /posts/:id` request on an existing post with title `T`
and content `C` answers 204 with an empty body, rewrites exactly that
record to carry `T` and `C` while keeping its author, id and created
fields, and leaves every other record (and the record count)
unchanged. -/
theorem put_partial_update (s : Store) (i : Nat) (t c : String)
    (p0 : BlogPost) (h : findById i s = some p0) :
    (handlePut i (putBody t c) s).1.status = 204 ∧
    (handlePut i (putBody t c) s).1.body = none ∧
    findById i (handlePut i (putBody t c) s).2
      = some { p0 with title := t, content := c } ∧
    ({ p0 with title := t, content := c } : BlogPost).id = p0.id ∧
    ({ p0 with title := t, content := c } : BlogPost).author = p0.author ∧
    ({ p0 with title := t, content := c } : BlogPost).created = p0.created ∧
    (∀ j, j ≠ i →
      findById j (handlePut i (putBody t c) s).2 = findById j s) ∧
    count (handlePut i (putBody t c) s).2 = count s := by
  have hsnd : (handlePut i (putBody t c) s).2
      = updateFields i (some t) (some c) s := rfl
  refine ⟨rfl, rfl, ?_, rfl, rfl, rfl, ?_, ?_⟩
  · unfold findById
    rw [hsnd]
    show (s.records.map (applyUpdate i (some t) (some c))).find?
      (fun r => r.id == i) = _
    rw [find?_map_applyUpdate_self i (some t) (some c) s.records p0 h]
    rfl
  · intro j hj
    unfold findById
    rw [hsnd]
    show (s.records.map (applyUpdate i (some t) (some c))).find?
        (fun r => r.id == j) = _
    rw [find?_map_applyUpdate_ne i j (some t) (some c) s.records hj]
  · unfold count
    rw [hsnd]
    show (s.records.map (applyUpdate i (some t) (some c))).length = _
    rw [List.length_map]

/-- Witness for C5 on the one-record store, updating title and content
to concrete new values. -/
theorem put_partial_update_witness :
    findById 0 sampleStore = some sampleRecord ∧
    ((handlePut 0 (putBody "X" "Y") sampleStore).1.status = 204 ∧
     (handlePut 0 (putBody "X" "Y") sampleStore).1.body = none ∧
     findById 0 (handlePut 0 (putBody "X" "Y") sampleStore).2
       = some { sampleRecord with title := "X", content := "Y" } ∧
     ({ sampleRecord with title := "X", content := "Y" } : BlogPost).id
       = sampleRecord.id ∧
     ({ sampleRecord with title := "X", content := "Y" } : BlogPost).author
       = sampleRecord.author ∧
     ({ sampleRecord with title := "X", content := "Y" } : BlogPost).created
       = sampleRecord.created ∧
     (∀ j, j ≠ 0 →
       findById j (handlePut 0 (putBody "X" "Y") sampleStore).2
         = findById j sampleStore) ∧
     count (handlePut 0 (putBody "X" "Y") sampleStore).2
       = count sampleStore) :=
  ⟨rfl, put_partial_update sampleStore 0 "X" "Y" sampleRecord rfl⟩

/-! ## Claim C6: delete visibility -/

/-- C6: deleting an existing post by id answers 204 with an empty body,
after which `findById` on that id returns absent. -/
theorem delete_then_absent (s : Store) (i : Nat)
    (_h : ∃ p, findById i s = some p) :
    (handleDelete i s).1.status = 204 ∧
    (handleDelete i s).1.body = none ∧
    findById i (handleDelete i s).2 = none := by
  refine ⟨rfl, rfl, ?_⟩
  unfold findById
  show (s.records.filter (fun r => r.id != i)).find?
    (fun r => r.id == i) = none
  rw [List.find?_eq_none]
  intro x hx
  have hmem := List.mem_filter.mp hx
  have hne : x.id ≠ i := by simpa using hmem.2
  simpa using hne

/-- Witness for C6: delete the one record of the one-record store. -/
theorem delete_then_absent_witness :
    (∃ p, findById 0 sampleStore = some p) ∧
    ((handleDelete 0 sampleStore).1.status = 204 ∧
     (handleDelete 0 sampleStore).1.body = none ∧
     findById 0 (handleDelete 0 sampleStore).2 = none) :=
  ⟨⟨sampleRecord, rfl⟩,
    delete_then_absent sampleStore 0 ⟨sampleRecord, rfl⟩⟩

/-! ## Claim C10: the update request body the harness sends -/

/-- The body of the PUT request the harness builds on lines 206-220 of
the test file: the `updateData` literal carries title and content, and
line 214 then assigns the id of the fetched post into it, so the body
sent over carries exactly these three keys. -/
def updateData (postId : Nat) : List (String × JValue) :=
  [("title", .jstr "fofofofofofofof"),
   ("content", .jstr "futuristic fusion"),
   ("id", .jnum postId)]

/-- C10: the PUT request the harness issues carries a body with exactly
the keys title, content and id, where the id field equals the id in the
request path (both come from the post fetched by `findOne`), and the
server still answers 204 on that body. -/
theorem put_request_body_shape (s : Store) (p : BlogPost)
    (_h : findOne s = some p) :
    (updateData p.id).map Prod.fst = ["title", "content", "id"] ∧
    (updateData p.id).lookup "id" = some (.jnum p.id) ∧
    (handlePut p.id (updateData p.id) s).1.status = 204 :=
  ⟨rfl, rfl, rfl⟩

/-- Witness for C10 on the one-record store. -/
theorem put_request_body_shape_witness :
    findOne sampleStore = some sampleRecord ∧
    ((updateData sampleRecord.id).map Prod.fst
       = ["title", "content", "id"] ∧
     (updateData sampleRecord.id).lookup "id"
       = some (.jnum sampleRecord.id) ∧
     (handlePut sampleRecord.id (updateData sampleRecord.id)
       sampleStore).1.status = 204) :=
  ⟨rfl, put_request_body_shape sampleStore sampleRecord rfl⟩

/-! ## Claim C4: the fixture generators fail on the source as written -/

/-- C4: the claim that every `generateBlogPostData` call yields an
author from a fixed set of string pairs and a content string from a
fixed set of paragraphs fails on the code as written.  The authors
array stores bare identifiers (`Jeff`, `Bernstein`, ...) instead of
string literals, so evaluating it throws a `ReferenceError` for every
random draw; and the content array literal lists its three string
literals with no separating commas, so it is not a parseable array
literal at all (a `SyntaxError` when the module loads). -/
theorem generator_fixtures_malformed :
    (∀ r : ℚ, generateAuthor r
      = Except.error "ReferenceError: Jeff is not defined") ∧
    parseArrayLit contentArrayToks = none ∧
    parseArrayLit [Tok.lbrack, Tok.strTok lorem1, Tok.comma,
      Tok.strTok lorem2, Tok.comma, Tok.strTok lorem3, Tok.rbrack]
      = some contentStrings :=
  ⟨fun _ => rfl, rfl, rfl⟩

/-! ## Claim C7: seeding builds ten fixtures in one batch -/

theorem seedPostData_fst_length (g : Nat → NewPost) (s : Store) :
    (seedPostData g s).1.length = 10 := by
  unfold seedPostData
  simp [insertMany_fst_length]

theorem seedPostData_count (g : Nat → NewPost) (s : Store) :
    count (seedPostData g s).2 = count s + 10 := by
  unfold count seedPostData
  rw [insertMany_snd_records]
  simp [insertMany_fst_length]

theorem seedPostData_fst_fields (g : Nat → NewPost) (s : Store) :
    (seedPostData g s).1.map (fun b => (b.author, b.title, b.content))
      = (List.range 10).map
          (fun i => ((g i).author, (g i).title, (g i).content)) := by
  unfold seedPostData
  rw [insertMany_fst_fields, List.map_map]
  rfl

/-- C7: every `seedPostData` call builds exactly ten fixtures, the
`i`-th coming from the `i`-th generator call, and persists the whole
batch through one `insertMany` step, whose result it returns: the store
grows by exactly the ten new records appended in order, each carrying
the author, title and content of its own generator call. -/
theorem seed_builds_ten_in_one_batch (g : Nat → NewPost) (s : Store) :
    ((List.range 10).map g).length = 10 ∧
    (seedPostData g s).1.length = 10 ∧
    count (seedPostData g s).2 = count s + 10 ∧
    (seedPostData g s).2.records = s.records ++ (seedPostData g s).1 ∧
    (seedPostData g s).1.map (fun b => (b.author, b.title, b.content))
      = (List.range 10).map
          (fun i => ((g i).author, (g i).title, (g i).content)) :=
  ⟨by simp, seedPostData_fst_length g s, seedPostData_count g s,
    insertMany_snd_records _ _, seedPostData_fst_fields g s⟩

/-! ## Claim C8: suite lifecycle and test isolation -/

/-- The three events one test case contributes to the suite trace. -/
def caseEvents (i : Nat) : List Event :=
  [.seedEv i, .testEv i, .dropEv i]

theorem caseEvents_count_run (i : Nat) :
    (caseEvents i).count Event.runServerEv = 0 := rfl

theorem caseEvents_count_close (i : Nat) :
    (caseEvents i).count Event.closeServerEv = 0 := rfl

theorem middle_count_run (n : Nat) :
    ((List.range n).flatMap caseEvents).count Event.runServerEv = 0 := by
  induction n with
  | zero => rfl
  | succ m ih =>
    rw [List.range_succ, List.flatMap_append, List.count_append, ih]
    simp [caseEvents_count_run]

theorem middle_count_close (n : Nat) :
    ((List.range n).flatMap caseEvents).count Event.closeServerEv = 0 := by
  induction n with
  | zero => rfl
  | succ m ih =>
    rw [List.range_succ, List.flatMap_append, List.count_append, ih]
    simp [caseEvents_count_close]

theorem flatMap_caseEvents_decomp (i n : Nat) (h : i < n) :
    ∃ t1 t2, (List.range n).flatMap caseEvents
      = t1 ++ caseEvents i ++ t2 := by
  induction n with
  | zero => omega
  | succ m ih =>
    rcases Nat.lt_succ_iff_lt_or_eq.mp h with hlt | heq
    · obtain ⟨t1, t2, heq2⟩ := ih hlt
      refine ⟨t1, t2 ++ caseEvents m, ?_⟩
      rw [List.range_succ, List.flatMap_append, heq2]
      simp [List.append_assoc]
    · subst heq
      refine ⟨(List.range i).flatMap caseEvents, [], ?_⟩
      rw [List.range_succ, List.flatMap_append]
      simp

theorem storeBetween_records_nil (effects : Nat → Store → Store)
    (g : Nat → Nat → NewPost) (i : Nat) :
    (storeBetween effects g i).records = [] := by
  cases i with
  | zero => rfl
  | succ m => rfl

/-- C8: the suite trace starts the server exactly once and stops it
exactly once; every test case `i` below the suite size sits directly
between its own seeding and its own database drop; and whatever writes
every test case performs, each test case starts on a store holding
exactly the ten records its own `beforeEach` seeded — none of another
case. -/
theorem harness_lifecycle (n : Nat) (effects : Nat → Store → Store)
    (g : Nat → Nat → NewPost) :
    (suiteTrace n).count Event.runServerEv = 1 ∧
    (suiteTrace n).count Event.closeServerEv = 1 ∧
    (∀ i, i < n → ∃ l1 l2, suiteTrace n
      = l1 ++ [Event.seedEv i, Event.testEv i, Event.dropEv i] ++ l2) ∧
    (∀ i, count (storeAtTestStart effects g i) = 10 ∧
      (storeAtTestStart effects g i).records.map
          (fun b => (b.author, b.title, b.content))
        = (List.range 10).map
            (fun j => ((g i j).author, (g i j).title, (g i j).content))) := by
  refine ⟨?_, ?_, ?_, ?_⟩
  · unfold suiteTrace
    rw [List.count_append, List.count_append]
    rw [show (List.range n).flatMap
        (fun i => [Event.seedEv i, Event.testEv i, Event.dropEv i])
      = (List.range n).flatMap caseEvents from rfl]
    rw [middle_count_run]
    rfl
  · unfold suiteTrace
    rw [List.count_append, List.count_append]
    rw [show (List.range n).flatMap
        (fun i => [Event.seedEv i, Event.testEv i, Event.dropEv i])
      = (List.range n).flatMap caseEvents from rfl]
    rw [middle_count_close]
    rfl
  · intro i hi
    obtain ⟨t1, t2, heq⟩ := flatMap_caseEvents_decomp i n hi
    refine ⟨Event.runServerEv :: t1, t2 ++ [Event.closeServerEv], ?_⟩
    unfold suiteTrace
    rw [show (List.range n).flatMap
        (fun i => [Event.seedEv i, Event.testEv i, Event.dropEv i])
      = (List.range n).flatMap caseEvents from rfl]
    rw [heq]
    simp [caseEvents, List.append_assoc]
  · intro i
    have hrec : (storeAtTestStart effects g i).records
        = (seedPostData (g i) (storeBetween effects g i)).1 := by
      unfold storeAtTestStart
      rw [show (seedPostData (g i) (storeBetween effects g i)).2
          = (insertMany ((List.range 10).map (g i))
              (storeBetween effects g i)).2 from rfl]
      rw [insertMany_snd_records, storeBetween_records_nil]
      rfl
    constructor
    · unfold count
      rw [hrec]
      exact seedPostData_fst_length (g i) (storeBetween effects g i)
    · rw [hrec]
      exact seedPostData_fst_fields (g i) (storeBetween effects g i)

/-- Witness for C8 on a one-test suite with identity test effects and a
constant generator. -/
theorem harness_lifecycle_witness :
    (suiteTrace 1).count Event.runServerEv = 1 ∧
    (suiteTrace 1).count Event.closeServerEv = 1 ∧
    ((0 : Nat) < 1 ∧ ∃ l1 l2, suiteTrace 1
      = l1 ++ [Event.seedEv 0, Event.testEv 0, Event.dropEv 0] ++ l2) ∧
    (count (storeAtTestStart (fun _ s => s)
        (fun _ _ => sampleNewPost) 0) = 10 ∧
      (storeAtTestStart (fun _ s => s)
          (fun _ _ => sampleNewPost) 0).records.map
          (fun b => (b.author, b.title, b.content))
        = (List.range 10).map (fun _ =>
            (sampleNewPost.author, sampleNewPost.title,
              sampleNewPost.content))) :=
  ⟨(harness_lifecycle 1 (fun _ s => s) (fun _ _ => sampleNewPost)).1,
    (harness_lifecycle 1 (fun _ s => s) (fun _ _ => sampleNewPost)).2.1,
    ⟨Nat.zero_lt_one,
      (harness_lifecycle 1 (fun _ s => s)
        (fun _ _ => sampleNewPost)).2.2.1 0 Nat.zero_lt_one⟩,
    (harness_lifecycle 1 (fun _ s => s) (fun _ _ => sampleNewPost)).2.2.2 0⟩

end BlogApp
